import Mathlib

/-!
Shallow embedding of the loan-approval simulation in `app1.py`.

Modelling conventions:
* Currency values stored in the customer table (`pre_approved_limit`,
  `monthly_salary`) and the credit score are SQLite INTEGERs, embedded as `ℤ`.
* The requested loan amount reaches the engine as a Python float
  (`float(data.get('loan_amount', 0))` in `start_simulation`); float
  arithmetic (`* 1.12`, `/ tenure`, `* 0.5`) is embedded as exact `ℚ`
  arithmetic, matching the spec's "comparisons use full precision" reading.
* The f-string reasons built by `underwriting_agent` are embedded as a
  structured `Reason` carrying exactly the numeric payloads interpolated
  into each format string.
* The conversation log built by `start_simulation` is embedded as a list of
  structured `LogEntry` values, one per `log.append` call, carrying the
  interpolated payloads.
-/

namespace LoanApproval

/-- A row of the `customers` table, as returned by `get_customer_by_id`:
`id, name, phone, address, credit_score, pre_approved_limit, monthly_salary`. -/
structure CustomerProfile where
  id : ℤ
  name : String
  phone : String
  address : String
  credit_score : ℤ
  pre_approved_limit : ℤ
  monthly_salary : ℤ
deriving DecidableEq, Repr

/-- Decision status: the `"status"` field of the dicts returned by
`underwriting_agent` (the `"error"` case is kept separate, see `UWResult`). -/
inductive Status where
  | approved
  | rejected
deriving DecidableEq, Repr

/-- The `"reason"` f-strings of `underwriting_agent`, with the numeric values
each format string interpolates:
* `creditBelowMinimum score threshold` — "Credit score ({score}) is below the
  minimum requirement of 700" (threshold is the literal 700);
* `exceedsTwiceLimit amount twiceLimit` — "Requested loan amount (Rs{amount})
  exceeds 2x the pre-approved limit (Rs{2*limit})";
* `withinPreApprovedLimit amount limit` — "Loan amount (Rs{amount}) is within
  pre-approved limit (Rs{limit})";
* `salaryVerificationPassed emi salary` — "Salary verification passed.
  EMI (Rs{emi}) is within 50% of monthly salary (Rs{salary})";
* `emiExceedsHalfSalary emi maxEmi` — "EMI (Rs{emi}) exceeds 50% of monthly
  salary (Rs{maxEmi})". -/
inductive Reason where
  | creditBelowMinimum (score : ℤ) (threshold : ℤ)
  | exceedsTwiceLimit (amount : ℚ) (twiceLimit : ℤ)
  | withinPreApprovedLimit (amount : ℚ) (limit : ℤ)
  | salaryVerificationPassed (emi : ℚ) (salary : ℤ)
  | emiExceedsHalfSalary (emi : ℚ) (maxEmi : ℚ)
deriving DecidableEq, Repr

/-- The dict returned by a matching rule of `underwriting_agent`.  Keys that a
branch does not put in its dict are `none` / `false` here: the only consumer
(`start_simulation`) reads them with `.get(...)`, whose `None` default is falsy,
so an absent key and an explicit `false`/`none` are observationally the same. -/
structure Decision where
  status : Status
  reason : Reason
  interest_rate : Option ℚ
  tenure_months : Option ℕ
  emi : Option ℚ
  salary_verification_required : Bool
deriving DecidableEq, Repr

/-- The stretch-tier block of `underwriting_agent` (lines 172-190):
`total_amount = loan_amount * 1.12`, `emi = total_amount / tenure_months`,
`max_emi = monthly_salary * 0.5`, then approve at 12.0% iff `emi <= max_emi`. -/
def stretchDecision (c : CustomerProfile) (loan_amount : ℚ) (tenure_months : ℕ) : Decision :=
  let total_amount : ℚ := loan_amount * 1.12
  let emi : ℚ := total_amount / (tenure_months : ℚ)
  let max_emi : ℚ := (c.monthly_salary : ℚ) * 0.5
  if emi ≤ max_emi then
    { status := .approved
      reason := .salaryVerificationPassed emi c.monthly_salary
      interest_rate := some 12.0
      tenure_months := some tenure_months
      emi := some emi
      salary_verification_required := true }
  else
    { status := .rejected
      reason := .emiExceedsHalfSalary emi max_emi
      interest_rate := none
      tenure_months := none
      emi := none
      salary_verification_required := false }

/-- The rule chain of `underwriting_agent` (lines 152-190), for a profile that
was found.  `none` is the Python function's implicit fall-through (no `return`
statement reached), which yields Python `None`. -/
def evaluate (c : CustomerProfile) (loan_amount : ℚ) (tenure_months : ℕ) : Option Decision :=
  if c.credit_score < 700 then
    some { status := .rejected
           reason := .creditBelowMinimum c.credit_score 700
           interest_rate := none
           tenure_months := none
           emi := none
           salary_verification_required := false }
  else if 2 * (c.pre_approved_limit : ℚ) < loan_amount then
    some { status := .rejected
           reason := .exceedsTwiceLimit loan_amount (2 * c.pre_approved_limit)
           interest_rate := none
           tenure_months := none
           emi := none
           salary_verification_required := false }
  else if loan_amount ≤ (c.pre_approved_limit : ℚ) then
    some { status := .approved
           reason := .withinPreApprovedLimit loan_amount c.pre_approved_limit
           interest_rate := some 10.5
           tenure_months := some tenure_months
           emi := none
           salary_verification_required := false }
  else if (c.pre_approved_limit : ℚ) < loan_amount ∧ loan_amount ≤ 2 * (c.pre_approved_limit : ℚ) then
    some (stretchDecision c loan_amount tenure_months)
  else
    none

/-- `get_customer_by_id`: `SELECT ... FROM customers WHERE id = ?`, i.e. the
first row with a matching primary key (the key is unique). -/
def get_customer_by_id (store : List CustomerProfile) (customer_id : ℤ) : Option CustomerProfile :=
  store.find? (fun c => c.id == customer_id)

/-- The message of `verification_agent` and `underwriting_agent` when
`get_customer_by_id` returns no row. -/
def customerNotFoundMsg : String := "Customer not found"

/-- Result of `verification_agent`: either the error dict
`{"status": "error", "message": ...}` or the success dict carrying the
profile's `name` and `kyc_details` (phone, address) unchanged. -/
inductive VerificationResult where
  | error (message : String)
  | success (name phone address : String)
deriving DecidableEq, Repr

/-- `verification_agent(customer_id)` (lines 130-140). -/
def verification_agent (store : List CustomerProfile) (customer_id : ℤ) : VerificationResult :=
  match get_customer_by_id store customer_id with
  | none => .error customerNotFoundMsg
  | some c => .success c.name c.phone c.address

/-- Result of `underwriting_agent`: the not-found error dict, a decision dict,
or `fallThrough` for the implicit `None` return when no rule matches. -/
inductive UWResult where
  | notFound
  | decided (d : Decision)
  | fallThrough
deriving DecidableEq, Repr

/-- `underwriting_agent(customer_id, loan_amount, tenure_months=60)`
(lines 142-190): looks the customer up itself, then runs the rule chain. -/
def underwriting_agent (store : List CustomerProfile) (customer_id : ℤ)
    (loan_amount : ℚ) (tenure_months : ℕ) : UWResult :=
  match get_customer_by_id store customer_id with
  | none => .notFound
  | some c =>
    match evaluate c loan_amount tenure_months with
    | some d => .decided d
    | none => .fallThrough

/-- One `log.append` call of `start_simulation` (lines 719-782), as a
structured entry carrying the values interpolated into the message.  The
filename in the download-link entry is timestamp-based, hence not modelled. -/
inductive LogEntry where
  | masterGreeting
  | masterProcessing (customer_id : ℤ)
  | masterRequestedAmount (amount : ℚ)
  | divider
  | masterInitiatingKyc
  | verificationError (message : String)
  | verificationSuccess
  | verificationName (name : String)
  | verificationPhone (phone : String)
  | verificationAddress (address : String)
  | masterForwarding
  | uwCreditScore (score : ℤ)
  | uwPreApprovedLimit (limit : ℤ)
  | uwSalaryVerification (salary : ℤ)
  | uwReason (r : Reason)
  | masterRejected
  | masterRejectedReason (r : Reason)
  | masterThankYou
  | masterApproved
  | masterGeneratingLetter
  | letterSuccess
  | letterDownloadLink
  | masterCongratulations
  | letterError
deriving DecidableEq, Repr

/-- The first five `log.append` calls of `start_simulation` (greeting,
customer id, requested amount, divider, KYC-initiation). -/
def simulationIntro (customer_id : ℤ) (loan_amount : ℚ) : List LogEntry :=
  [.masterGreeting, .masterProcessing customer_id, .masterRequestedAmount loan_amount,
   .divider, .masterInitiatingKyc]

/-- The entries appended after a successful KYC verification (lines 738-744). -/
def verificationLog (c : CustomerProfile) : List LogEntry :=
  [.verificationSuccess, .verificationName c.name, .verificationPhone c.phone,
   .verificationAddress c.address, .divider, .masterForwarding]

/-- The entries appended around the underwriting result (lines 747-755):
credit score, limit, the salary line iff
`underwriting_result.get("salary_verification_required")` is truthy, the
reason line, and a divider. -/
def underwritingLog (c : CustomerProfile) (d : Decision) : List LogEntry :=
  [.uwCreditScore c.credit_score, .uwPreApprovedLimit c.pre_approved_limit]
    ++ (if d.salary_verification_required then [.uwSalaryVerification c.monthly_salary] else [])
    ++ [.uwReason d.reason, .divider]

/-- `start_simulation` (lines 719-782), with the outcome of
`sanction_letter_generator` — external PDF/file I/O — abstracted as the boolean
`genOk` (`true` when it returns a filename, `false` when it returns `None`).
The Python route always calls `underwriting_agent` with the default
`tenure_months = 60`.  A `none` result models the request raising an exception:
this happens exactly when `evaluate` falls through and returns Python `None`,
on which line 751 (`underwriting_result.get(...)`) raises. -/
def start_simulation (store : List CustomerProfile) (customer_id : ℤ)
    (loan_amount : ℚ) (genOk : Bool) : Option (List LogEntry) :=
  match get_customer_by_id store customer_id with
  | none => some (simulationIntro customer_id loan_amount
      ++ [.verificationError customerNotFoundMsg])
  | some c =>
    match evaluate c loan_amount 60 with
    | none => none
    | some d =>
      let pre : List LogEntry := simulationIntro customer_id loan_amount
        ++ verificationLog c ++ underwritingLog c d
      match d.status with
      | .rejected => some (pre ++ [.masterRejected, .masterRejectedReason d.reason, .masterThankYou])
      | .approved => some (pre ++ [.masterApproved, .masterGeneratingLetter]
          ++ (if genOk then [.letterSuccess, .letterDownloadLink, .divider, .masterCongratulations]
              else [.letterError]))

/-- Default customer 1 inserted by `init_db`. -/
def rajesh : CustomerProfile :=
  { id := 1
    name := "Rajesh Kumar"
    phone := "+91-9876543210"
    address := "123 MG Road, Bangalore, Karnataka - 560001"
    credit_score := 750
    pre_approved_limit := 500000
    monthly_salary := 80000 }

/-- Default customer 2 inserted by `init_db`. -/
def priya : CustomerProfile :=
  { id := 2
    name := "Priya Sharma"
    phone := "+91-9123456789"
    address := "456 Park Street, Kolkata, West Bengal - 700016"
    credit_score := 650
    pre_approved_limit := 200000
    monthly_salary := 50000 }

/-- Default customer 3 inserted by `init_db`. -/
def amit : CustomerProfile :=
  { id := 3
    name := "Amit Patel"
    phone := "+91-9988776655"
    address := "789 Marine Drive, Mumbai, Maharashtra - 400020"
    credit_score := 720
    pre_approved_limit := 300000
    monthly_salary := 120000 }

/-- The customer table as `init_db` seeds it (ids 1, 2, 3 in insertion order). -/
def demoStore : List CustomerProfile := [rajesh, priya, amit]

/-! Helper lemmas: one evaluation equation per rule of the chain. -/

lemma evaluate_credit_floor (c : CustomerProfile) (a : ℚ) (t : ℕ)
    (h : c.credit_score < 700) :
    evaluate c a t = some
      { status := .rejected
        reason := .creditBelowMinimum c.credit_score 700
        interest_rate := none
        tenure_months := none
        emi := none
        salary_verification_required := false } := by
  unfold evaluate
  rw [if_pos h]

lemma evaluate_over_ceiling (c : CustomerProfile) (a : ℚ) (t : ℕ)
    (h1 : ¬ c.credit_score < 700) (h2 : 2 * (c.pre_approved_limit : ℚ) < a) :
    evaluate c a t = some
      { status := .rejected
        reason := .exceedsTwiceLimit a (2 * c.pre_approved_limit)
        interest_rate := none
        tenure_months := none
        emi := none
        salary_verification_required := false } := by
  unfold evaluate
  rw [if_neg h1, if_pos h2]

lemma evaluate_within_limit (c : CustomerProfile) (a : ℚ) (t : ℕ)
    (h1 : ¬ c.credit_score < 700) (h2 : ¬ 2 * (c.pre_approved_limit : ℚ) < a)
    (h3 : a ≤ (c.pre_approved_limit : ℚ)) :
    evaluate c a t = some
      { status := .approved
        reason := .withinPreApprovedLimit a c.pre_approved_limit
        interest_rate := some 10.5
        tenure_months := some t
        emi := none
        salary_verification_required := false } := by
  unfold evaluate
  rw [if_neg h1, if_neg h2, if_pos h3]

lemma evaluate_stretch (c : CustomerProfile) (a : ℚ) (t : ℕ)
    (h1 : ¬ c.credit_score < 700) (h2 : ¬ 2 * (c.pre_approved_limit : ℚ) < a)
    (h3 : ¬ a ≤ (c.pre_approved_limit : ℚ)) :
    evaluate c a t = some (stretchDecision c a t) := by
  unfold evaluate
  rw [if_neg h1, if_neg h2, if_neg h3, if_pos (And.intro (not_le.mp h3) (not_lt.mp h2))]

lemma find_rajesh : get_customer_by_id demoStore 1 = some rajesh := by
  simp [get_customer_by_id, demoStore, List.find?, rajesh]

lemma find_priya : get_customer_by_id demoStore 2 = some priya := by
  simp [get_customer_by_id, demoStore, List.find?, rajesh, priya]

lemma find_amit : get_customer_by_id demoStore 3 = some amit := by
  simp [get_customer_by_id, demoStore, List.find?, rajesh, priya, amit]

/-- C3: if `creditScore < 700` the request is rejected whatever the amount,
tenure and salary are, with the reason interpolating the customer's score and
the literal threshold 700.  The `creditBelowMinimum` constructor is produced
only by the first rule of the chain, so no later rule contributed to the
decision. -/
theorem credit_floor_correct (c : CustomerProfile) (a : ℚ) (t : ℕ)
    (h : c.credit_score < 700) :
    evaluate c a t = some
      { status := .rejected
        reason := .creditBelowMinimum c.credit_score 700
        interest_rate := none
        tenure_months := none
        emi := none
        salary_verification_required := false } :=
  evaluate_credit_floor c a t h

/-- Witness for C3: scenario B, customer Priya (score 650) is rejected citing
650 and 700. -/
theorem credit_floor_correct_witness :
    evaluate priya 100000 60 = some
      { status := .rejected
        reason := .creditBelowMinimum 650 700
        interest_rate := none
        tenure_months := none
        emi := none
        salary_verification_required := false } := by
  rw [credit_floor_correct priya 100000 60 (by norm_num [priya])]
  rfl

/-- C2: with `creditScore ≥ 700` and `requestedAmount ≤ preApprovedLimit`
(inclusive at equality; the spec's data model guarantees a positive limit) the
request is approved at exactly 10.5% for the requested tenure, with
`salary_verification_required = false`, no EMI, and — second conjunct — the
result is unchanged under any substitution of `monthly_salary`, i.e. no salary
check is performed. -/
theorem within_limit_correct (c : CustomerProfile) (a : ℚ) (t : ℕ)
    (hcs : 700 ≤ c.credit_score) (hlim : 0 < c.pre_approved_limit)
    (ha : a ≤ (c.pre_approved_limit : ℚ)) :
    evaluate c a t = some
      { status := .approved
        reason := .withinPreApprovedLimit a c.pre_approved_limit
        interest_rate := some 10.5
        tenure_months := some t
        emi := none
        salary_verification_required := false }
    ∧ ∀ s : ℤ, evaluate { c with monthly_salary := s } a t = evaluate c a t := by
  have hl0 : (0 : ℚ) ≤ (c.pre_approved_limit : ℚ) := by exact_mod_cast hlim.le
  have h2 : ¬ 2 * (c.pre_approved_limit : ℚ) < a := by push_neg; linarith
  refine ⟨evaluate_within_limit c a t (not_lt.mpr hcs) h2 ha, fun s => ?_⟩
  rw [evaluate_within_limit { c with monthly_salary := s } a t (not_lt.mpr hcs) h2 ha,
    evaluate_within_limit c a t (not_lt.mpr hcs) h2 ha]

/-- Witness for C2: scenario A, customer Rajesh (score 750, limit 500000)
requesting exactly the limit is approved at 10.5 with no salary flag, and the
decision is unchanged when the salary is replaced by 1. -/
theorem within_limit_correct_witness :
    evaluate rajesh 500000 60 = some
      { status := .approved
        reason := .withinPreApprovedLimit 500000 500000
        interest_rate := some 10.5
        tenure_months := some 60
        emi := none
        salary_verification_required := false }
    ∧ evaluate { rajesh with monthly_salary := 1 } 500000 60 = evaluate rajesh 500000 60 := by
  have h := within_limit_correct rajesh 500000 60 (by norm_num [rajesh])
    (by norm_num [rajesh]) (by norm_num [rajesh])
  exact ⟨h.1, h.2 1⟩

/-- C1: in the stretch tier (`creditScore ≥ 700`,
`preApprovedLimit < requestedAmount ≤ 2 × preApprovedLimit`) the engine
computes `emi = requestedAmount * 1.12 / tenureMonths` and
`maxAllowedEmi = monthlySalary * 0.5`; it approves at 12.0% with
`salary_verification_required = true` and the computed EMI exactly when
`emi ≤ maxAllowedEmi`, and otherwise rejects with a reason interpolating the
computed EMI and the max-allowed EMI. -/
theorem stretch_tier_correct (c : CustomerProfile) (a : ℚ) (t : ℕ)
    (hcs : 700 ≤ c.credit_score) (hlow : (c.pre_approved_limit : ℚ) < a)
    (hhigh : a ≤ 2 * (c.pre_approved_limit : ℚ)) :
    (a * 1.12 / (t : ℚ) ≤ (c.monthly_salary : ℚ) * 0.5 →
      evaluate c a t = some
        { status := .approved
          reason := .salaryVerificationPassed (a * 1.12 / (t : ℚ)) c.monthly_salary
          interest_rate := some 12.0
          tenure_months := some t
          emi := some (a * 1.12 / (t : ℚ))
          salary_verification_required := true })
    ∧ (¬ a * 1.12 / (t : ℚ) ≤ (c.monthly_salary : ℚ) * 0.5 →
      evaluate c a t = some
        { status := .rejected
          reason := .emiExceedsHalfSalary (a * 1.12 / (t : ℚ)) ((c.monthly_salary : ℚ) * 0.5)
          interest_rate := none
          tenure_months := none
          emi := none
          salary_verification_required := false }) := by
  have he := evaluate_stretch c a t (not_lt.mpr hcs) (not_lt.mpr hhigh) (not_le.mpr hlow)
  constructor <;> intro h <;> rw [he] <;> simp only [stretchDecision]
  · rw [if_pos h]
  · rw [if_neg h]

/-- Witness for C1: scenario C — Amit (score 720, limit 300000, salary 120000)
requesting 450000 over 60 months has `emi = 450000 * 1.12 / 60 = 8400 ≤ 60000`
and is approved at 12.0 with the EMI carried; and Rajesh (limit 500000,
salary 80000) requesting 1000000 over 12 months has
`emi = 1000000 * 1.12 / 12 = 280000/3 > 40000` and is rejected citing both
the EMI and the max-allowed EMI. -/
theorem stretch_tier_correct_witness :
    evaluate amit 450000 60 = some
      { status := .approved
        reason := .salaryVerificationPassed 8400 120000
        interest_rate := some 12.0
        tenure_months := some 60
        emi := some 8400
        salary_verification_required := true }
    ∧ evaluate rajesh 1000000 12 = some
      { status := .rejected
        reason := .emiExceedsHalfSalary (280000 / 3) 40000
        interest_rate := none
        tenure_months := none
        emi := none
        salary_verification_required := false } := by
  constructor
  · rw [(stretch_tier_correct amit 450000 60 (by norm_num [amit]) (by norm_num [amit])
      (by norm_num [amit])).1 (by norm_num [amit])]
    norm_num [amit]
  · rw [(stretch_tier_correct rajesh 1000000 12 (by norm_num [rajesh]) (by norm_num [rajesh])
      (by norm_num [rajesh])).2 (by norm_num [rajesh])]
    norm_num [rajesh]

/-- C4: three conjuncts.  First, any amount strictly above twice the
pre-approved limit is rejected whatever the credit score and salary (by the
credit-floor rule or by the hard-ceiling rule).  Second, the ceiling comparison
is strict: at exactly `2 × preApprovedLimit` (score ≥ 700, positive limit) the
request is not hard-rejected but handed to the stretch-tier computation.
Third, at exactly `preApprovedLimit` the within-limit rule 3 fires. -/
theorem hard_ceiling_correct (c : CustomerProfile) (a : ℚ) (t : ℕ) :
    (2 * (c.pre_approved_limit : ℚ) < a →
      ∀ d : Decision, evaluate c a t = some d → d.status = .rejected)
    ∧ (700 ≤ c.credit_score → 0 < c.pre_approved_limit →
        a = 2 * (c.pre_approved_limit : ℚ) →
        evaluate c a t = some (stretchDecision c a t))
    ∧ (700 ≤ c.credit_score → 0 < c.pre_approved_limit →
        a = (c.pre_approved_limit : ℚ) →
        evaluate c a t = some
          { status := .approved
            reason := .withinPreApprovedLimit a c.pre_approved_limit
            interest_rate := some 10.5
            tenure_months := some t
            emi := none
            salary_verification_required := false }) := by
  refine ⟨?_, ?_, ?_⟩
  · intro h2l d hd
    by_cases hcs : c.credit_score < 700
    · rw [evaluate_credit_floor c a t hcs] at hd
      injection hd with hd
      rw [← hd]
    · rw [evaluate_over_ceiling c a t hcs h2l] at hd
      injection hd with hd
      rw [← hd]
  · intro hcs hlim ha
    have hl0 : (0 : ℚ) < (c.pre_approved_limit : ℚ) := by exact_mod_cast hlim
    exact evaluate_stretch c a t (not_lt.mpr hcs) (not_lt.mpr (le_of_eq ha))
      (not_le.mpr (by rw [ha]; linarith))
  · intro hcs hlim ha
    have hl0 : (0 : ℚ) < (c.pre_approved_limit : ℚ) := by exact_mod_cast hlim
    exact evaluate_within_limit c a t (not_lt.mpr hcs)
      (by push_neg; rw [ha]; linarith) (le_of_eq ha)

/-- Witness for C4: scenario D — Rajesh requesting 1100000 (above twice the
limit 500000) ends rejected; requesting exactly 1000000 (= 2 × limit) is
dispatched to the stretch-tier computation; Amit requesting exactly his limit
300000 takes the rule-3 path. -/
theorem hard_ceiling_correct_witness :
    (evaluate rajesh 1100000 60).map Decision.status = some Status.rejected
    ∧ evaluate rajesh 1000000 60 = some (stretchDecision rajesh 1000000 60)
    ∧ evaluate amit 300000 60 = some
      { status := .approved
        reason := .withinPreApprovedLimit 300000 300000
        interest_rate := some 10.5
        tenure_months := some 60
        emi := none
        salary_verification_required := false } := by
  have he := evaluate_over_ceiling rajesh 1100000 60 (by norm_num [rajesh]) (by norm_num [rajesh])
  refine ⟨?_, ?_, ?_⟩
  · have hst := (hard_ceiling_correct rajesh 1100000 60).1 (by norm_num [rajesh]) _ he
    rw [he]
    simpa using hst
  · exact (hard_ceiling_correct rajesh 1000000 60).2.1 (by norm_num [rajesh])
      (by norm_num [rajesh]) (by norm_num [rajesh])
  · rw [(hard_ceiling_correct amit 300000 60).2.2 (by norm_num [amit]) (by norm_num [amit])
      (by norm_num [amit])]
    rfl

/-- C5: every rejected decision the engine returns carries no interest rate,
no tenure and no EMI — those keys appear only in approved dicts. -/
theorem rejected_carries_no_terms (c : CustomerProfile) (a : ℚ) (t : ℕ) (d : Decision)
    (hd : evaluate c a t = some d) (hs : d.status = .rejected) :
    d.interest_rate = none ∧ d.tenure_months = none ∧ d.emi = none := by
  simp only [evaluate, stretchDecision] at hd
  split_ifs at hd <;>
    first
      | exact Option.noConfusion hd
      | (injection hd with hd; subst hd; simp_all)

/-- Witness for C5: Priya's credit-floor rejection carries none of the three
optional fields. -/
theorem rejected_carries_no_terms_witness :
    (evaluate priya 100000 12).map Decision.interest_rate = some none
    ∧ (evaluate priya 100000 12).map Decision.tenure_months = some none
    ∧ (evaluate priya 100000 12).map Decision.emi = some none := by
  have he := evaluate_credit_floor priya 100000 12 (by norm_num [priya])
  have h := rejected_carries_no_terms priya 100000 12 _ he rfl
  rw [he]
  simpa using h

/-- C6 counterexample: the server performs no input validation, so an input
the spec calls invalid (non-positive `requestedAmount`) is not rejected before
evaluation — the eligibility rules run on it.  At `loan_amount = 0` for
customer 1 (Rajesh) the within-limit rule fires and the whole
`start_simulation` pipeline narrates an approval. -/
theorem input_validation_counterexample :
    evaluate rajesh 0 60 = some
      { status := .approved
        reason := .withinPreApprovedLimit 0 500000
        interest_rate := some 10.5
        tenure_months := some 60
        emi := none
        salary_verification_required := false }
    ∧ LogEntry.masterApproved ∈ (start_simulation demoStore 1 0 true).getD [] := by
  have h : evaluate rajesh 0 60 = some
      { status := .approved
        reason := .withinPreApprovedLimit 0 500000
        interest_rate := some 10.5
        tenure_months := some 60
        emi := none
        salary_verification_required := false } := by
    rw [evaluate_within_limit rajesh 0 60 (by norm_num [rajesh]) (by norm_num [rajesh])
      (by norm_num [rajesh])]
    rfl
  refine ⟨h, ?_⟩
  simp [start_simulation, find_rajesh, h, simulationIntro, verificationLog, underwritingLog]

/-- C6 (amended): the backend applies no `InvalidInput` gate; any non-positive
amount flows into the rule chain and — because it is below the (positive)
pre-approved limit — is approved under the within-limit rule whenever the
credit floor passes.  The only amount/score validation in the repository is in
the browser-side form script, which never reaches the server code. -/
theorem no_input_validation (c : CustomerProfile) (a : ℚ) (t : ℕ)
    (ha : a ≤ 0) (hcs : 700 ≤ c.credit_score) (hlim : 0 < c.pre_approved_limit) :
    evaluate c a t = some
      { status := .approved
        reason := .withinPreApprovedLimit a c.pre_approved_limit
        interest_rate := some 10.5
        tenure_months := some t
        emi := none
        salary_verification_required := false } := by
  have hl0 : (0 : ℚ) < (c.pre_approved_limit : ℚ) := by exact_mod_cast hlim
  exact evaluate_within_limit c a t (not_lt.mpr hcs) (by push_neg; linarith) (by linarith)

/-- Witness for the amended C6: a negative requested amount is approved for
Rajesh under the within-limit rule. -/
theorem no_input_validation_witness :
    evaluate rajesh (-5) 60 = some
      { status := .approved
        reason := .withinPreApprovedLimit (-5) 500000
        interest_rate := some 10.5
        tenure_months := some 60
        emi := none
        salary_verification_required := false } := by
  rw [no_input_validation rajesh (-5) 60 (by norm_num) (by norm_num [rajesh])
    (by norm_num [rajesh])]
  rfl

/-- C7: if no profile matches the customer id, verification fails with the
not-found error and the whole simulation stops right there — the transcript is
the intro followed by the verification error only, so the eligibility engine
contributes nothing; if a profile matches, verification returns its name,
phone and address unchanged. -/
theorem verification_gate_correct (store : List CustomerProfile) (cid : ℤ) :
    (get_customer_by_id store cid = none →
      verification_agent store cid = .error customerNotFoundMsg
      ∧ ∀ (a : ℚ) (genOk : Bool),
          start_simulation store cid a genOk =
            some (simulationIntro cid a ++ [.verificationError customerNotFoundMsg]))
    ∧ ∀ c : CustomerProfile, get_customer_by_id store cid = some c →
        verification_agent store cid = .success c.name c.phone c.address := by
  constructor
  · intro h
    constructor
    · unfold verification_agent
      rw [h]
    · intro a genOk
      unfold start_simulation
      rw [h]
  · intro c h
    unfold verification_agent
    rw [h]

/-- Witness for C7: id 99 matches no seeded customer, so verification errors
and the simulation log ends at the verification failure; id 1 matches Rajesh
and his KYC fields come back unchanged. -/
theorem verification_gate_correct_witness :
    verification_agent demoStore 99 = .error customerNotFoundMsg
    ∧ start_simulation demoStore 99 777 true =
        some (simulationIntro 99 777 ++ [.verificationError customerNotFoundMsg])
    ∧ verification_agent demoStore 1 = .success rajesh.name rajesh.phone rajesh.address := by
  have hnone : get_customer_by_id demoStore 99 = none := by
    simp [get_customer_by_id, demoStore, List.find?, rajesh, priya, amit]
  have h := verification_gate_correct demoStore 99
  have h1 := verification_gate_correct demoStore 1
  exact ⟨(h.1 hnone).1, (h.1 hnone).2 777 true, h1.2 rajesh find_rajesh⟩

/-- C8: the underwriting step is deterministic and side-effect-free — its
result depends only on the profile snapshot the store returns for the id (two
stores agreeing on the lookup give identical results), and two evaluations of
identical inputs yield decisions that agree in every field. -/
theorem evaluate_deterministic (store₁ store₂ : List CustomerProfile) (cid : ℤ)
    (a : ℚ) (t : ℕ)
    (hstore : get_customer_by_id store₁ cid = get_customer_by_id store₂ cid) :
    underwriting_agent store₁ cid a t = underwriting_agent store₂ cid a t
    ∧ ∀ d₁ d₂ : Decision,
        underwriting_agent store₁ cid a t = .decided d₁ →
        underwriting_agent store₂ cid a t = .decided d₂ →
        d₁.status = d₂.status ∧ d₁.reason = d₂.reason
        ∧ d₁.interest_rate = d₂.interest_rate ∧ d₁.tenure_months = d₂.tenure_months
        ∧ d₁.emi = d₂.emi
        ∧ d₁.salary_verification_required = d₂.salary_verification_required := by
  have heq : underwriting_agent store₁ cid a t = underwriting_agent store₂ cid a t := by
    unfold underwriting_agent
    rw [hstore]
  refine ⟨heq, fun d₁ d₂ h₁ h₂ => ?_⟩
  rw [heq, h₂] at h₁
  injection h₁ with h₁
  rw [h₁]
  exact ⟨rfl, rfl, rfl, rfl, rfl, rfl⟩

/-- Witness for C8: two runs against the seeded store agree, and the decided
decisions of those runs agree field by field. -/
theorem evaluate_deterministic_witness :
    underwriting_agent demoStore 1 100000 60 = underwriting_agent demoStore 1 100000 60
    ∧ (⟨.approved, .withinPreApprovedLimit 100000 500000, some 10.5, some 60, none,
        false⟩ : Decision).status =
      (⟨.approved, .withinPreApprovedLimit 100000 500000, some 10.5, some 60, none,
        false⟩ : Decision).status := by
  have hev : evaluate rajesh 100000 60 = some
      ⟨.approved, .withinPreApprovedLimit 100000 500000, some 10.5, some 60, none, false⟩ := by
    rw [evaluate_within_limit rajesh 100000 60 (by norm_num [rajesh]) (by norm_num [rajesh])
      (by norm_num [rajesh])]
    rfl
  have hu : underwriting_agent demoStore 1 100000 60 = .decided
      ⟨.approved, .withinPreApprovedLimit 100000 500000, some 10.5, some 60, none, false⟩ := by
    simp only [underwriting_agent, find_rajesh, hev]
  have h := evaluate_deterministic demoStore demoStore 1 100000 60 rfl
  exact ⟨h.1, (h.2 _ _ hu hu).1⟩

/-- C9: when the evaluation is approved but sanction-letter generation fails
(`sanction_letter_generator` returns `None`, modelled `genOk = false`), the
simulation still narrates the approval and only afterwards the generation
error — the decision is not retracted, its approved status and reason appear
in the transcript before the error entry. -/
theorem approval_not_retracted (store : List CustomerProfile) (cid : ℤ) (a : ℚ)
    (c : CustomerProfile) (d : Decision)
    (hc : get_customer_by_id store cid = some c)
    (hd : evaluate c a 60 = some d) (hs : d.status = .approved) :
    start_simulation store cid a false =
      some (simulationIntro cid a ++ verificationLog c ++ underwritingLog c d
        ++ [.masterApproved, .masterGeneratingLetter, .letterError]) := by
  simp only [start_simulation, hc, hd, hs, Bool.false_eq_true, if_false]
  simp [List.append_assoc]

/-- Witness for C9: Rajesh requesting 400000 is approved; with the generator
failing, the transcript ends with the approval narration followed by the
letter error. -/
theorem approval_not_retracted_witness :
    start_simulation demoStore 1 400000 false =
      some (simulationIntro 1 400000 ++ verificationLog rajesh
        ++ underwritingLog rajesh
          { status := .approved
            reason := .withinPreApprovedLimit 400000 500000
            interest_rate := some 10.5
            tenure_months := some 60
            emi := none
            salary_verification_required := false }
        ++ [.masterApproved, .masterGeneratingLetter, .letterError]) := by
  have hd : evaluate rajesh 400000 60 = some
      { status := .approved
        reason := .withinPreApprovedLimit 400000 500000
        interest_rate := some 10.5
        tenure_months := some 60
        emi := none
        salary_verification_required := false } := by
    rw [evaluate_within_limit rajesh 400000 60 (by norm_num [rajesh]) (by norm_num [rajesh])
      (by norm_num [rajesh])]
    rfl
  exact approval_not_retracted demoStore 1 400000 rajesh _ find_rajesh hd rfl

/-- C10: the rule chain is exhaustive on its documented domain — for every
profile and positive amount and tenure, `evaluate` returns a decision (the
implicit Python fall-through returning `None` is unreachable), and whenever
rules 1-3 all decline, the fourth guard
`preApprovedLimit < amount ≤ 2 × preApprovedLimit` holds.  Exactly one rule
fires: the listed disjuncts each carry the negations of the preceding guards,
so they are pairwise exclusive by construction, and the disjunction is total. -/
theorem rule_chain_exhaustive (c : CustomerProfile) (a : ℚ) (t : ℕ) (ha : 0 < a) :
    (evaluate c a t).isSome = true
    ∧ (¬ c.credit_score < 700 → ¬ 2 * (c.pre_approved_limit : ℚ) < a →
        ¬ a ≤ (c.pre_approved_limit : ℚ) →
        (c.pre_approved_limit : ℚ) < a ∧ a ≤ 2 * (c.pre_approved_limit : ℚ))
    ∧ (c.credit_score < 700
        ∨ (¬ c.credit_score < 700 ∧ 2 * (c.pre_approved_limit : ℚ) < a)
        ∨ (¬ c.credit_score < 700 ∧ ¬ 2 * (c.pre_approved_limit : ℚ) < a
            ∧ a ≤ (c.pre_approved_limit : ℚ))
        ∨ (¬ c.credit_score < 700 ∧ ¬ 2 * (c.pre_approved_limit : ℚ) < a
            ∧ ¬ a ≤ (c.pre_approved_limit : ℚ))) := by
  refine ⟨?_, fun _ h2 h3 => ⟨not_le.mp h3, not_lt.mp h2⟩, by tauto⟩
  unfold evaluate
  split_ifs with h1 h2 h3 h4
  · rfl
  · rfl
  · rfl
  · rfl
  · exact absurd ⟨not_le.mp h3, not_lt.mp h2⟩ h4

/-- Witness for C10: a concrete positive request for every seeded customer
yields a decision. -/
theorem rule_chain_exhaustive_witness :
    (evaluate rajesh 123456 60).isSome = true
    ∧ (evaluate priya 123456 60).isSome = true
    ∧ (evaluate amit 123456 60).isSome = true :=
  ⟨(rule_chain_exhaustive rajesh 123456 60 (by norm_num)).1,
   (rule_chain_exhaustive priya 123456 60 (by norm_num)).1,
   (rule_chain_exhaustive amit 123456 60 (by norm_num)).1⟩

end LoanApproval
